import Mathlib

/-!
Shallow embedding of the cam-ascii-art frame-to-glyph conversion pipeline
(src/src/components/AsciiConverter.tsx).

JavaScript numbers are modelled as exact rationals (ℚ); `Math.floor` is
`Int.floor`; `Math.max`/`Math.min` are `max`/`min`; JS string indexing
`s[i]` (which yields `undefined` out of bounds) is `List.get?` on the
string's character list, returning `Option Char`.
-/

namespace CamAscii

/-- RGBA pixel as read back from the canvas; the alpha channel is never read
by the converter, so only the three colour channels are modelled.
Channel values are the post-adjustment values in `[0, 255]`. -/
structure Pixel where
  r : ℕ
  g : ℕ
  b : ℕ
deriving DecidableEq, Repr

/-- Luminance of a pixel, from `(0.299 * r + 0.587 * g + 0.114 * b) / 255`
in `processFrame` (AsciiConverter.tsx line 362). -/
def luminance (p : Pixel) : ℚ :=
  (0.299 * p.r + 0.587 * p.g + 0.114 * p.b) / 255

/-- The `pixelToAscii` callback (AsciiConverter.tsx lines 193-197):

`const normalized = settings.invert ? 1 - luminance : luminance;`
`const index = Math.floor(normalized * (chars.length - 1));`
`return chars[Math.max(0, Math.min(index, chars.length - 1))];`

JS indexing out of bounds yields `undefined`, modelled by `Option Char`. -/
def pixelToAscii (invert : Bool) (lum : ℚ) (chars : String) : Option Char :=
  let normalized := if invert then 1 - lum else lum
  let index : ℤ := ⌊normalized * ((chars.length : ℚ) - 1)⌋
  chars.data.get? (max 0 (min index ((chars.length : ℤ) - 1))).toNat

/-- JS string concatenation `ascii += pixelToAscii(...)` coerces the value to
a string: a character stays itself, `undefined` becomes the text
`"undefined"`. -/
def jsChars : Option Char → List Char
  | some c => [c]
  | none => "undefined".data

/-- The rendering configuration, the `Settings` interface of the source
(fields in source order; colours kept as their hex strings). -/
structure Settings where
  fontSize : ℚ
  letterSpacing : ℚ
  lineHeight : ℚ
  contrast : ℚ
  brightness : ℚ
  saturation : ℚ
  invert : Bool
  grayscale : Bool
  mirrorCamera : Bool
  foregroundColor : String
  backgroundColor : String
  asciiSet : String
  fontFamily : String
  showStats : Bool
deriving DecidableEq, Repr

/-- `DEFAULT_SETTINGS` from the source (lines 85-100). -/
def DEFAULT_SETTINGS : Settings :=
  { fontSize := 8
    letterSpacing := 0
    lineHeight := 1
    contrast := 100
    brightness := 100
    saturation := 100
    invert := false
    grayscale := true
    mirrorCamera := true
    foregroundColor := "#00ff00"
    backgroundColor := "#000000"
    asciiSet := "@#%*+=-:. "
    fontFamily := "JetBrains Mono"
    showStats := false }

/-- One row of the inner pixel loop of `processFrame` (lines 355-366): for
each `x` in `[0, width)`, append the character for the pixel at `(x, y)` of
the canvas image. -/
def rowChars (width : ℕ) (y : ℕ) (s : Settings) (data : ℕ → ℕ → Pixel) : List Char :=
  (List.range width).flatMap fun x =>
    jsChars (pixelToAscii s.invert (luminance (data x y)) s.asciiSet)

/-- The full double loop of `processFrame` (lines 354-368): rows in order,
each row followed by the newline appended at line 367. -/
def gridChars (width height : ℕ) (s : Settings) (data : ℕ → ℕ → Pixel) : List Char :=
  (List.range height).flatMap fun y => rowChars width y s data ++ ['\n']

/-- The `processFrame` callback (lines 311-373), as far as it computes the
emitted glyph grid.  `data` abstracts the canvas contents after the host
`drawImage` call (which applies the CSS filter chain and the optional
mirroring and scales the video down to `width × height`).  Guards translated
from the source:

* `!videoRef.current || ... || !isPlaying` → the `isPlaying` flag;
* `video.readyState !== 4` → the `readyState` argument;
* `ctx.getImageData(0, 0, width, height)` throws `IndexSizeError` when
  `width` or `height` is zero (HTML canvas contract), aborting the tick
  before the display is updated — modelled as `none`.

`none` means the tick emits no grid; `some g` means the display is replaced
by `g`. -/
def processFrame (isPlaying : Bool) (readyState : ℕ) (videoW videoH pixelStep : ℕ)
    (s : Settings) (data : ℕ → ℕ → Pixel) : Option String :=
  if ¬ isPlaying then none
  else if readyState ≠ 4 then none
  else
    let width := videoW / pixelStep
    let height := videoH / pixelStep
    if width = 0 ∨ height = 0 then none
    else some (String.mk (gridChars width height s data))

/-- Display contents after one tick: `asciiRef.current.textContent = ascii`
(lines 371-373) runs only when the tick reaches it; otherwise the previous
text is left in place. -/
def displayAfterTick (prev : String) (isPlaying : Bool) (readyState : ℕ)
    (videoW videoH pixelStep : ℕ) (s : Settings) (data : ℕ → ℕ → Pixel) : String :=
  match processFrame isPlaying readyState videoW videoH pixelStep s data with
  | none => prev
  | some a => a

/-- The `onChange` handler of the "Characters" input (lines 804-810):
`setSettings(prev => ({ ...prev, asciiSet: e.target.value }))`. -/
def asciiSetInputChange (prev : Settings) (value : String) : Settings :=
  { prev with asciiSet := value }

/-- The `autoSizing` state (line 133): one boolean per geometry dimension;
`true` means auto-fit may overwrite it, `false` means the user has locked
it. -/
structure AutoSizing where
  fontSize : Bool
  letterSpacing : Bool
  lineHeight : Bool
deriving DecidableEq, Repr

/-- The three geometry values chosen by the auto-fit sizer. -/
structure Geometry where
  fontSize : ℚ
  letterSpacing : ℚ
  lineHeight : ℚ
deriving DecidableEq, Repr

/-- Horizontal cell width for a geometry (lines 231-232):
`cellWidth = glyphWidth + letterSpacing * fontSize` with
`glyphWidth = fontSize * glyphAspect`. -/
def cellWidthOf (glyphAspect : ℚ) (g : Geometry) : ℚ :=
  g.fontSize * glyphAspect + g.letterSpacing * g.fontSize

/-- Vertical cell height for a geometry (line 230):
`cellHeight = fontSize * lineHeight`. -/
def cellHeightOf (g : Geometry) : ℚ :=
  g.fontSize * g.lineHeight

/-- The scale factor of the no-locks branch (lines 248-253):
`min(viewportW / gridWidth, viewportH / gridHeight)`. -/
def gridScale (viewportW viewportH : ℚ) (cols rows : ℕ) (glyphAspect : ℚ)
    (g : Geometry) : ℚ :=
  min (viewportW / ((cols : ℚ) * cellWidthOf glyphAspect g))
    (viewportH / ((rows : ℚ) * cellHeightOf g))

/-- Step 5 of `calculateAutoSize` (lines 243-294): solve the unlocked
dimensions and clamp all three once at the end.  The branch structure is the
source's `if`-chain; the final `else` is unreachable (it would need
`fontSize`, `letterSpacing` and `lineHeight` all auto yet the all-auto
branch not taken) and leaves the values unchanged, as the source's fall-through
does. -/
def solveGeometry (viewportW viewportH : ℚ) (cols rows : ℕ) (glyphAspect : ℚ)
    (auto : AutoSizing) (g : Geometry) : Geometry :=
  let glyphWidth := g.fontSize * glyphAspect
  let scale := gridScale viewportW viewportH cols rows glyphAspect g
  let raw : Geometry :=
    if auto.fontSize ∧ auto.letterSpacing ∧ auto.lineHeight then
      -- none locked: scale fontSize and letterSpacing, keep lineHeight
      { fontSize := g.fontSize * scale
        letterSpacing := g.letterSpacing * scale
        lineHeight := g.lineHeight }
    else if ¬ auto.fontSize then
      -- font size locked: solve spacing and line height from the current size
      { fontSize := g.fontSize
        letterSpacing :=
          if auto.letterSpacing then (viewportW / cols - glyphWidth) / g.fontSize
          else g.letterSpacing
        lineHeight :=
          if auto.lineHeight then viewportH / (rows * g.fontSize)
          else g.lineHeight }
    else if ¬ auto.letterSpacing then
      -- letter spacing locked: solve the font size, then line height from it
      let newFontSize := (viewportW / cols - g.letterSpacing * g.fontSize) / glyphAspect
      { fontSize := newFontSize
        letterSpacing := g.letterSpacing
        lineHeight :=
          if auto.lineHeight then viewportH / (rows * newFontSize)
          else g.lineHeight }
    else if ¬ auto.lineHeight then
      -- line height locked: solve the font size, then spacing from it
      let newFontSize := viewportH / (rows * g.lineHeight)
      { fontSize := newFontSize
        letterSpacing :=
          if auto.letterSpacing then (viewportW / cols - newFontSize * glyphAspect) / newFontSize
          else g.letterSpacing
        lineHeight := g.lineHeight }
    else g
  -- apply bounds and clamp values (lines 292-294), once, after solving
  { fontSize := max 4 (min 128 raw.fontSize)
    letterSpacing := max (-2) (min 8 raw.letterSpacing)
    lineHeight := max 0.5 (min 3 raw.lineHeight) }

/-- The `calculateAutoSize` callback (lines 211-308) as a pure function of
its inputs.  `glyphAspect` stands for the font-metric measurement
`measureGlyphAspect(fontFamily, fontSize)` (an external collaborator).  The
result is the geometry held in settings after the call: the early `return`s
and the change-suppression test leave it unchanged. -/
def calculateAutoSize (viewportW viewportH : ℚ) (videoW videoH pixelStep : ℕ)
    (glyphAspect : ℚ) (auto : AutoSizing) (g : Geometry) : Geometry :=
  -- `if (video.videoWidth && video.videoHeight)` — zero dimensions do nothing
  if videoW = 0 ∨ videoH = 0 then g
  else
    let rows := videoH / pixelStep
    let cols := videoW / pixelStep
    let gridWidth := (cols : ℚ) * cellWidthOf glyphAspect g
    let gridHeight := (rows : ℚ) * cellHeightOf g
    -- step 4: grid already fits the viewport, just center it (line 238)
    if gridWidth ≤ viewportW ∧ gridHeight ≤ viewportH then g
    -- all locked by the user, no changes (line 255)
    else if ¬ auto.fontSize ∧ ¬ auto.letterSpacing ∧ ¬ auto.lineHeight then g
    else
      let solved := solveGeometry viewportW viewportH cols rows glyphAspect auto g
      -- update settings only if some value moved past its epsilon (lines 297-299)
      if 0.1 < |solved.fontSize - g.fontSize| ∨
         0.01 < |solved.letterSpacing - g.letterSpacing| ∨
         0.01 < |solved.lineHeight - g.lineHeight| then solved
      else g

/-- The per-control switches of the `RandomSettings` interface (lines 68-82). -/
structure RandomControls where
  fontSize : Bool
  letterSpacing : Bool
  lineHeight : Bool
  contrast : Bool
  brightness : Bool
  saturation : Bool
  invert : Bool
  grayscale : Bool
  mirrorCamera : Bool
  foregroundColor : Bool
  backgroundColor : Bool
  asciiSet : Bool
  fontFamily : Bool
deriving DecidableEq, Repr

/-- The `RandomSettings` interface (lines 64-83). -/
structure RandomSettings where
  enabled : Bool
  interval : ℚ
  autoMode : Bool
  controls : RandomControls
deriving DecidableEq, Repr

/-- One `Math.random()` draw per randomizable control, each in `[0, 1)`. -/
structure Draws where
  fontSize : ℚ
  letterSpacing : ℚ
  lineHeight : ℚ
  contrast : ℚ
  brightness : ℚ
  saturation : ℚ
  invert : ℚ
  grayscale : ℚ
  mirrorCamera : ℚ
  foregroundColor : ℚ
  backgroundColor : ℚ
  asciiSet : ℚ
  fontFamily : ℚ
deriving DecidableEq, Repr

/-- `Object.values(ASCII_PRESETS)` (lines 12-25), in key insertion order. -/
def ASCII_PRESETS : List String :=
  ["@#%*+=-:. ",
   "@ .=+#",
   " .:-=+_X",
   " .:*I$VFNM",
   " .\x27:,\"-_+=^\"",
   " ._/",
   " ░▒▓█",
   " .,:;i1tfLCG08@▒▓█",
   " ▏▎▍▌▋▊▉█",
   "01|¦=+■",
   "█▓▒░.-\x27 \"",
   "□▪▫■▲▼◆◼◻"]

/-- `MONOSPACE_FONTS` (lines 28-45). -/
def MONOSPACE_FONTS : List String :=
  ["JetBrains Mono", "Fira Code", "Source Code Pro", "Roboto Mono",
   "Ubuntu Mono", "Inconsolata", "Space Mono", "IBM Plex Mono",
   "PT Mono", "Courier Prime", "Anonymous Pro", "Overpass Mono",
   "Share Tech Mono", "Nova Mono", "VT323", "Major Mono Display"]

/-- `n.toString(16).padStart(6, "0")` with a leading `#`, for
`n < 16777216` (lines 494, 497). -/
def hexColor (n : ℕ) : String :=
  let digits := Nat.toDigits 16 n
  "#" ++ String.mk (List.replicate (6 - digits.length) '0' ++ digits)

/-- The `randomizeSettings` callback (lines 457-509), as a function of the
`Math.random()` draws.  Each enabled control overwrites its settings field;
drawing `fontSize`, `letterSpacing` or `lineHeight` also sets the matching
`autoSizing` flag to `false` (locks the dimension against auto-fit).
The source assigns the fields one by one on a copy of `prev`; as every
enabled control writes a distinct field, that sequence of updates is written
here as one record whose every field carries its own conditional.
Preset and font draws index their lists; for draws in `[0, 1)` the index is
in range, so the `getD` default is never used. -/
def randomizeSettings (rs : RandomSettings) (d : Draws) (prev : Settings)
    (auto : AutoSizing) : Settings × AutoSizing :=
  if ¬ rs.enabled then (prev, auto)
  else
    ({ fontSize := if rs.controls.fontSize then (⌊d.fontSize * (32 - 4)⌋ : ℚ) + 4
         else prev.fontSize
       letterSpacing := if rs.controls.letterSpacing then d.letterSpacing * 10 - 2
         else prev.letterSpacing
       lineHeight := if rs.controls.lineHeight then d.lineHeight * 2.5 + 0.5
         else prev.lineHeight
       contrast := if rs.controls.contrast then (⌊d.contrast * 400⌋ : ℚ)
         else prev.contrast
       brightness := if rs.controls.brightness then (⌊d.brightness * 400⌋ : ℚ)
         else prev.brightness
       saturation := if rs.controls.saturation then (⌊d.saturation * 400⌋ : ℚ)
         else prev.saturation
       invert := if rs.controls.invert then decide ((0.5 : ℚ) < d.invert)
         else prev.invert
       grayscale := if rs.controls.grayscale then decide ((0.5 : ℚ) < d.grayscale)
         else prev.grayscale
       mirrorCamera := if rs.controls.mirrorCamera then decide ((0.5 : ℚ) < d.mirrorCamera)
         else prev.mirrorCamera
       foregroundColor := if rs.controls.foregroundColor then
           hexColor (⌊d.foregroundColor * 16777215⌋).toNat
         else prev.foregroundColor
       backgroundColor := if rs.controls.backgroundColor then
           hexColor (⌊d.backgroundColor * 16777215⌋).toNat
         else prev.backgroundColor
       asciiSet := if rs.controls.asciiSet then
           ASCII_PRESETS.getD (⌊d.asciiSet * (ASCII_PRESETS.length : ℚ)⌋).toNat ""
         else prev.asciiSet
       fontFamily := if rs.controls.fontFamily then
           MONOSPACE_FONTS.getD (⌊d.fontFamily * (MONOSPACE_FONTS.length : ℚ)⌋).toNat ""
         else prev.fontFamily
       showStats := prev.showStats },
     { fontSize := if rs.controls.fontSize then false else auto.fontSize
       letterSpacing := if rs.controls.letterSpacing then false else auto.letterSpacing
       lineHeight := if rs.controls.lineHeight then false else auto.lineHeight })

/-- The font-size slider handler (lines 649-652): sets the value and locks
the dimension.  The slider widget is declared with `min={4} max={128}`. -/
def fontSizeSliderChange (prev : Settings) (auto : AutoSizing) (v : ℚ) :
    Settings × AutoSizing :=
  ({ prev with fontSize := v }, { auto with fontSize := false })

/-- The letter-spacing slider handler (lines 664-667), declared with
`min={-2} max={8}`. -/
def letterSpacingSliderChange (prev : Settings) (auto : AutoSizing) (v : ℚ) :
    Settings × AutoSizing :=
  ({ prev with letterSpacing := v }, { auto with letterSpacing := false })

/-- The line-height slider handler (lines 679-682), declared with
`min={0.5} max={3}`. -/
def lineHeightSliderChange (prev : Settings) (auto : AutoSizing) (v : ℚ) :
    Settings × AutoSizing :=
  ({ prev with lineHeight := v }, { auto with lineHeight := false })

/-- Bounds required of a geometry by the clamping step (lines 292-294). -/
abbrev geomInBounds (g : Geometry) : Prop :=
  4 ≤ g.fontSize ∧ g.fontSize ≤ 128 ∧
  0.5 ≤ g.lineHeight ∧ g.lineHeight ≤ 3 ∧
  -2 ≤ g.letterSpacing ∧ g.letterSpacing ≤ 8

/-! ## Helper lemmas -/

/-- On a non-empty character set the clamped index is in bounds, so
`pixelToAscii` returns one of the set's characters. -/
theorem pixelToAscii_some (invert : Bool) (L : ℚ) (chars : String)
    (h : chars.data ≠ []) :
    ∃ c, pixelToAscii invert L chars = some c ∧ c ∈ chars.data := by
  have hlen : chars.length = chars.data.length := rfl
  have hpos : 0 < chars.data.length := List.length_pos.mpr h
  unfold pixelToAscii
  set idx : ℤ := ⌊(if invert then 1 - L else L) * ((chars.length : ℚ) - 1)⌋ with hidx
  have h0 : (0 : ℤ) ≤ max 0 (min idx ((chars.length : ℤ) - 1)) := le_max_left _ _
  have h1 : max 0 (min idx ((chars.length : ℤ) - 1)) ≤ (chars.length : ℤ) - 1 := by
    refine max_le ?_ (min_le_right _ _)
    rw [hlen]
    omega
  have hlt : (max 0 (min idx ((chars.length : ℤ) - 1))).toNat < chars.data.length := by
    rw [hlen] at h1
    omega
  exact ⟨_, List.get?_eq_get hlt, List.get_mem _ _ hlt⟩

/-- Each cell of a row contributes exactly one character when the ramp is
non-empty. -/
theorem rowChars_length (width y : ℕ) (s : Settings) (data : ℕ → ℕ → Pixel)
    (h : s.asciiSet.data ≠ []) :
    (rowChars width y s data).length = width := by
  unfold rowChars
  rw [List.length_flatMap]
  have hone : ∀ x : ℕ,
      (jsChars (pixelToAscii s.invert (luminance (data x y)) s.asciiSet)).length = 1 := by
    intro x
    obtain ⟨c, hc, -⟩ := pixelToAscii_some s.invert (luminance (data x y)) s.asciiSet h
    rw [hc]
    rfl
  have : (List.map
      (List.length ∘ fun x =>
        jsChars (pixelToAscii s.invert (luminance (data x y)) s.asciiSet))
      (List.range width)) = List.replicate width 1 := by
    rw [List.eq_replicate_iff]
    constructor
    · simp
    · intro b hb
      obtain ⟨x, -, hx⟩ := List.mem_map.mp hb
      rw [← hx]
      exact hone x
  rw [this, List.sum_replicate, smul_eq_mul, mul_one]

/-- A string is non-empty iff its character list is. -/
theorem data_ne_nil (chars : String) (h : chars ≠ "") : chars.data ≠ [] := by
  intro hd
  apply h
  cases chars
  simp_all

/-! ## Claim theorems -/

/-- C1: for a ramp of length at least 2, every character `pixelToAscii` emits
is the ramp character at index `⌊L_eff * (N-1)⌋` clamped to `[0, N-1]`;
luminance 0 with `invert = false` yields the first ramp character, luminance
1 the last, and with `invert = true` those two endpoints are swapped. -/
theorem pixelToAscii_ramp_index (chars : String) (h2 : 2 ≤ chars.length)
    (invert : Bool) (L : ℚ) :
    (∃ i : ℕ, i < chars.length ∧
      (i : ℤ) = max 0 (min ⌊(if invert then 1 - L else L) * ((chars.length : ℚ) - 1)⌋
        ((chars.length : ℤ) - 1)) ∧
      pixelToAscii invert L chars = chars.data.get? i) ∧
    pixelToAscii false 0 chars = chars.data.get? 0 ∧
    pixelToAscii false 1 chars = chars.data.get? (chars.length - 1) ∧
    pixelToAscii true 0 chars = chars.data.get? (chars.length - 1) ∧
    pixelToAscii true 1 chars = chars.data.get? 0 := by
  have hcast : ((chars.length : ℚ) - 1) = (((chars.length : ℤ) - 1 : ℤ) : ℚ) := by
    push_cast
    ring
  have hfloor : ⌊(chars.length : ℚ) - 1⌋ = (chars.length : ℤ) - 1 := by
    rw [hcast, Int.floor_intCast]
  have key : ∀ (b : Bool) (l : ℚ) (k : ℤ),
      ⌊(if b then 1 - l else l) * ((chars.length : ℚ) - 1)⌋ = k →
      pixelToAscii b l chars
        = chars.data.get? (max 0 (min k ((chars.length : ℤ) - 1))).toNat := by
    intro b l k hk
    simp only [pixelToAscii]
    rw [hk]
  refine ⟨?_, ?_, ?_, ?_, ?_⟩
  · refine ⟨(max 0 (min ⌊(if invert then 1 - L else L) * ((chars.length : ℚ) - 1)⌋
      ((chars.length : ℤ) - 1))).toNat, ?_, ?_, rfl⟩
    · have h1 : max 0 (min ⌊(if invert then 1 - L else L) * ((chars.length : ℚ) - 1)⌋
          ((chars.length : ℤ) - 1)) ≤ (chars.length : ℤ) - 1 := by
        refine max_le ?_ (min_le_right _ _)
        omega
      omega
    · have h0 : (0 : ℤ) ≤ max 0 (min ⌊(if invert then 1 - L else L) * ((chars.length : ℚ) - 1)⌋
          ((chars.length : ℤ) - 1)) := le_max_left _ _
      omega
  · rw [key false 0 0 (by norm_num)]
    congr 1
    omega
  · rw [key false 1 ((chars.length : ℤ) - 1) (by norm_num [hfloor])]
    congr 1
    omega
  · rw [key true 0 ((chars.length : ℤ) - 1) (by norm_num [hfloor])]
    congr 1
    omega
  · rw [key true 1 0 (by norm_num)]
    congr 1
    omega

/-- C1 witness at the two-character ramp `"ab"` with `invert = true` and
luminance 1. -/
theorem pixelToAscii_ramp_index_witness :
    2 ≤ ("ab" : String).length ∧
    ((∃ i : ℕ, i < ("ab" : String).length ∧
      (i : ℤ) = max 0 (min ⌊(if true then 1 - (1 : ℚ) else 1) * ((("ab" : String).length : ℚ) - 1)⌋
        ((("ab" : String).length : ℤ) - 1)) ∧
      pixelToAscii true 1 "ab" = ("ab" : String).data.get? i) ∧
    pixelToAscii false 0 "ab" = ("ab" : String).data.get? 0 ∧
    pixelToAscii false 1 "ab" = ("ab" : String).data.get? (("ab" : String).length - 1) ∧
    pixelToAscii true 0 "ab" = ("ab" : String).data.get? (("ab" : String).length - 1) ∧
    pixelToAscii true 1 "ab" = ("ab" : String).data.get? 0) :=
  ⟨by decide, pixelToAscii_ramp_index "ab" (by decide) true 1⟩

/-- C10: `pixelToAscii` is total over every rational luminance, including
values outside `[0, 1]`: for a non-empty character set the clamped index is
always in bounds and the result is a character of the set. -/
theorem pixelToAscii_total (chars : String) (h : chars ≠ "") (invert : Bool)
    (L : ℚ) :
    ∃ c, pixelToAscii invert L chars = some c ∧ c ∈ chars.data :=
  pixelToAscii_some invert L chars (data_ne_nil chars h)

/-- C10 witness at a luminance outside `[0, 1]`. -/
theorem pixelToAscii_total_witness :
    ("ab" : String) ≠ "" ∧
    ∃ c, pixelToAscii false (7 / 2) "ab" = some c ∧ c ∈ ("ab" : String).data :=
  ⟨by decide, pixelToAscii_total "ab" (by decide) false (7 / 2)⟩

/-- C3: for a playing, ready source of `videoW × videoH` pixels and a sample
step `s` with `1 ≤ s ≤ min videoW videoH` (and a non-empty ramp, the data
model invariant), the emitted grid has exactly `⌊videoH / s⌋` rows, every
row has exactly `⌊videoW / s⌋` characters, and each row is terminated with a
line break. -/
theorem processFrame_grid_shape (videoW videoH step : ℕ) (s : Settings)
    (data : ℕ → ℕ → Pixel) (hstep : 1 ≤ step) (hw : step ≤ videoW)
    (hh : step ≤ videoH) (hramp : s.asciiSet ≠ "") :
    ∃ rows : List (List Char),
      processFrame true 4 videoW videoH step s data
        = some (String.mk (rows.flatMap fun r => r ++ ['\n'])) ∧
      rows.length = videoH / step ∧
      ∀ r ∈ rows, r.length = videoW / step := by
  have hw1 : videoW / step ≠ 0 := by
    have := (Nat.one_le_div_iff (Nat.lt_of_lt_of_le Nat.zero_lt_one hstep)).mpr hw
    omega
  have hh1 : videoH / step ≠ 0 := by
    have := (Nat.one_le_div_iff (Nat.lt_of_lt_of_le Nat.zero_lt_one hstep)).mpr hh
    omega
  refine ⟨(List.range (videoH / step)).map
    (fun y => rowChars (videoW / step) y s data), ?_, ?_, ?_⟩
  · simp only [processFrame, gridChars]
    rw [if_neg (by simp), if_neg (by simp), if_neg (by simp [hw1, hh1]),
      List.flatMap_map]
  · simp
  · intro r hr
    obtain ⟨y, -, hy⟩ := List.mem_map.mp hr
    rw [← hy]
    exact rowChars_length _ y s data (data_ne_nil _ hramp)

/-- C3 witness: a 12 × 12 source at step 6 with the default ramp gives a
2 × 2 grid. -/
theorem processFrame_grid_shape_witness :
    1 ≤ 6 ∧ 6 ≤ 12 ∧ DEFAULT_SETTINGS.asciiSet ≠ "" ∧
    ∃ rows : List (List Char),
      processFrame true 4 12 12 6 DEFAULT_SETTINGS (fun _ _ => ⟨0, 0, 0⟩)
        = some (String.mk (rows.flatMap fun r => r ++ ['\n'])) ∧
      rows.length = 12 / 6 ∧
      ∀ r ∈ rows, r.length = 12 / 6 :=
  ⟨by decide, by decide, by decide,
    processFrame_grid_shape 12 12 6 DEFAULT_SETTINGS (fun _ _ => ⟨0, 0, 0⟩)
      (by decide) (by decide) (by decide) (by decide)⟩

/-- C6: a zero-area source makes the tick a no-op: `processFrame` emits no
grid (the canvas read-back throws before the display update is reached) and
the previously displayed text is left unchanged. -/
theorem processFrame_zero_area_skip (isPlaying : Bool) (readyState : ℕ)
    (videoW videoH step : ℕ) (s : Settings) (data : ℕ → ℕ → Pixel)
    (prev : String) (h : videoW = 0 ∨ videoH = 0) :
    processFrame isPlaying readyState videoW videoH step s data = none ∧
    displayAfterTick prev isPlaying readyState videoW videoH step s data = prev := by
  have hz : videoW / step = 0 ∨ videoH / step = 0 := by
    rcases h with h | h
    · exact Or.inl (by simp [h])
    · exact Or.inr (by simp [h])
  have hp : processFrame isPlaying readyState videoW videoH step s data = none := by
    rcases hz with hz | hz <;> simp [processFrame, hz]
  exact ⟨hp, by simp [displayAfterTick, hp]⟩

/-- C6 witness at a 0 × 480 source. -/
theorem processFrame_zero_area_skip_witness :
    processFrame true 4 0 480 6 DEFAULT_SETTINGS (fun _ _ => ⟨0, 0, 0⟩) = none ∧
    displayAfterTick "prior grid" true 4 0 480 6 DEFAULT_SETTINGS
      (fun _ _ => ⟨0, 0, 0⟩) = "prior grid" :=
  processFrame_zero_area_skip true 4 0 480 6 DEFAULT_SETTINGS
    (fun _ _ => ⟨0, 0, 0⟩) "prior grid" (Or.inl rfl)

/-- C5 counterexample: entering the empty character set is applied verbatim,
so the active ramp becomes empty instead of the last valid ramp (here the
default `"@#%*+=-:. "`) being retained. -/
theorem asciiSet_empty_applied :
    (asciiSetInputChange DEFAULT_SETTINGS "").asciiSet = "" ∧
    DEFAULT_SETTINGS.asciiSet = "@#%*+=-:. " :=
  ⟨rfl, rfl⟩

/-- C5 (amended): the "Characters" input handler applies any entered value,
including the empty string, without validation; with an empty ramp
`pixelToAscii` yields no character (JS `undefined`), and the per-cell string
append then appends the text `"undefined"` instead of a ramp character. -/
theorem asciiSet_change_applies_verbatim (prev : Settings) (v : String)
    (invert : Bool) (L : ℚ) :
    (asciiSetInputChange prev v).asciiSet = v ∧
    pixelToAscii invert L "" = none ∧
    jsChars (pixelToAscii invert L "") = "undefined".data := by
  have hnone : pixelToAscii invert L "" = none := by
    simp only [pixelToAscii]
    exact List.get?_nil
  refine ⟨rfl, hnone, ?_⟩
  rw [hnone]
  rfl

/-- C2 counterexample: with no locks, a grid that underflows the 1280 × 720
viewport (640 × 480 source, step 6, aspect 0.6, geometry ⟨8, 0, 1⟩) is left
unchanged by `calculateAutoSize`, and `cols × cellWidth = 508.8` misses
`viewport.w = 1280` by 771.2 px — the grid does not fill the viewport. -/
theorem autofit_underflow_not_filled :
    calculateAutoSize 1280 720 640 480 6 (3 / 5) ⟨true, true, true⟩ ⟨8, 0, 1⟩
      = ⟨8, 0, 1⟩ ∧
    (640 / 6 : ℕ) = 106 ∧
    (106 : ℚ) * cellWidthOf (3 / 5) ⟨8, 0, 1⟩ = 2544 / 5 ∧
    (1280 : ℚ) - 2544 / 5 = 3856 / 5 := by
  refine ⟨?_, by decide, by norm_num [cellWidthOf], by norm_num⟩
  norm_num [calculateAutoSize, cellWidthOf, cellHeightOf]

/-- C2 (amended): with no dimension locked, auto-fit only corrects overflow.
When the current grid overflows the viewport, it scales `fontSize` and
`letterSpacing` by `min(viewport.w / gridWidth, viewport.h / gridHeight)`;
provided `letterSpacing` is 0, the scaled `fontSize` stays inside the
`[4, 128]` clamp, `lineHeight` is inside `[0.5, 3]`, and the `fontSize`
change exceeds the 0.1 px suppression epsilon, the resulting grid fits the
viewport and exactly fills it along the limiting dimension (the other
dimension may underflow).  When the grid already fits, the geometry is left
unchanged, so underflow is never corrected (see the counterexample). -/
theorem autofit_no_locks_overflow_fits (vw vh : ℚ) (videoW videoH step : ℕ)
    (aspect : ℚ) (g : Geometry)
    (hcols : 1 ≤ videoW / step) (hrows : 1 ≤ videoH / step)
    (hfs : 0 < g.fontSize) (hasp : 0 < aspect) (hls : g.letterSpacing = 0)
    (hover : ¬ (((videoW / step : ℕ) : ℚ) * cellWidthOf aspect g ≤ vw ∧
                ((videoH / step : ℕ) : ℚ) * cellHeightOf g ≤ vh))
    (hlo : 4 ≤ g.fontSize * gridScale vw vh (videoW / step) (videoH / step) aspect g)
    (hhi : g.fontSize * gridScale vw vh (videoW / step) (videoH / step) aspect g ≤ 128)
    (hlh1 : 0.5 ≤ g.lineHeight) (hlh2 : g.lineHeight ≤ 3)
    (heps : 0.1 < |g.fontSize * gridScale vw vh (videoW / step) (videoH / step) aspect g
      - g.fontSize|) :
    ((videoW / step : ℕ) : ℚ) * cellWidthOf aspect
        (calculateAutoSize vw vh videoW videoH step aspect ⟨true, true, true⟩ g) ≤ vw ∧
    ((videoH / step : ℕ) : ℚ) * cellHeightOf
        (calculateAutoSize vw vh videoW videoH step aspect ⟨true, true, true⟩ g) ≤ vh ∧
    (((videoW / step : ℕ) : ℚ) * cellWidthOf aspect
        (calculateAutoSize vw vh videoW videoH step aspect ⟨true, true, true⟩ g) = vw ∨
     ((videoH / step : ℕ) : ℚ) * cellHeightOf
        (calculateAutoSize vw vh videoW videoH step aspect ⟨true, true, true⟩ g) = vh) := by
  have hlh0 : (0 : ℚ) < g.lineHeight := lt_of_lt_of_le (by norm_num) hlh1
  have hv1 : ¬ (videoW = 0 ∨ videoH = 0) := by
    rintro (h | h)
    · simp [h] at hcols
    · simp [h] at hrows
  have hc1 : (1 : ℚ) ≤ ((videoW / step : ℕ) : ℚ) := by exact_mod_cast hcols
  have hr1 : (1 : ℚ) ≤ ((videoH / step : ℕ) : ℚ) := by exact_mod_cast hrows
  have hcw : cellWidthOf aspect g = g.fontSize * aspect := by
    rw [cellWidthOf, hls, zero_mul, add_zero]
  have hch : cellHeightOf g = g.fontSize * g.lineHeight := rfl
  have hgw : (0 : ℚ) < ((videoW / step : ℕ) : ℚ) * cellWidthOf aspect g := by
    rw [hcw]
    exact mul_pos (lt_of_lt_of_le one_pos hc1) (mul_pos hfs hasp)
  have hgh : (0 : ℚ) < ((videoH / step : ℕ) : ℚ) * cellHeightOf g := by
    rw [hch]
    exact mul_pos (lt_of_lt_of_le one_pos hr1) (mul_pos hfs hlh0)
  have hsolve : solveGeometry vw vh (videoW / step) (videoH / step) aspect
      ⟨true, true, true⟩ g
      = ⟨g.fontSize * gridScale vw vh (videoW / step) (videoH / step) aspect g, 0,
          g.lineHeight⟩ := by
    simp only [solveGeometry]
    rw [if_pos (by simp)]
    simp only [Geometry.mk.injEq]
    refine ⟨?_, ?_, ?_⟩
    · rw [min_eq_right hhi, max_eq_right hlo]
    · rw [hls, zero_mul]
      norm_num
    · rw [min_eq_right hlh2, max_eq_right hlh1]
  have hmain : calculateAutoSize vw vh videoW videoH step aspect ⟨true, true, true⟩ g
      = ⟨g.fontSize * gridScale vw vh (videoW / step) (videoH / step) aspect g, 0,
          g.lineHeight⟩ := by
    simp only [calculateAutoSize]
    rw [if_neg hv1, if_neg hover, if_neg (by simp), hsolve, if_pos (Or.inl heps)]
  rw [hmain]
  have hSeq : gridScale vw vh (videoW / step) (videoH / step) aspect g
      = min (vw / (((videoW / step : ℕ) : ℚ) * cellWidthOf aspect g))
          (vh / (((videoH / step : ℕ) : ℚ) * cellHeightOf g)) := rfl
  have e1 : ((videoW / step : ℕ) : ℚ) * cellWidthOf aspect
      (⟨g.fontSize * gridScale vw vh (videoW / step) (videoH / step) aspect g, 0,
        g.lineHeight⟩ : Geometry)
      = gridScale vw vh (videoW / step) (videoH / step) aspect g
        * (((videoW / step : ℕ) : ℚ) * cellWidthOf aspect g) := by
    simp only [cellWidthOf]
    rw [hls]
    ring
  have e2 : ((videoH / step : ℕ) : ℚ) * cellHeightOf
      (⟨g.fontSize * gridScale vw vh (videoW / step) (videoH / step) aspect g, 0,
        g.lineHeight⟩ : Geometry)
      = gridScale vw vh (videoW / step) (videoH / step) aspect g
        * (((videoH / step : ℕ) : ℚ) * cellHeightOf g) := by
    simp only [cellHeightOf]
    ring
  rw [e1, e2]
  rcases min_cases (vw / (((videoW / step : ℕ) : ℚ) * cellWidthOf aspect g))
      (vh / (((videoH / step : ℕ) : ℚ) * cellHeightOf g)) with ⟨hmin, hle⟩ | ⟨hmin, hlt⟩
  · have hwid : gridScale vw vh (videoW / step) (videoH / step) aspect g
        * (((videoW / step : ℕ) : ℚ) * cellWidthOf aspect g) = vw := by
      rw [hSeq, hmin]
      exact div_mul_cancel₀ vw (ne_of_gt hgw)
    have hhei : gridScale vw vh (videoW / step) (videoH / step) aspect g
        * (((videoH / step : ℕ) : ℚ) * cellHeightOf g) ≤ vh := by
      rw [hSeq, hmin]
      calc vw / (((videoW / step : ℕ) : ℚ) * cellWidthOf aspect g)
            * (((videoH / step : ℕ) : ℚ) * cellHeightOf g)
          ≤ vh / (((videoH / step : ℕ) : ℚ) * cellHeightOf g)
            * (((videoH / step : ℕ) : ℚ) * cellHeightOf g) :=
            mul_le_mul_of_nonneg_right hle (le_of_lt hgh)
        _ = vh := div_mul_cancel₀ vh (ne_of_gt hgh)
    exact ⟨le_of_eq hwid, hhei, Or.inl hwid⟩
  · have hhei : gridScale vw vh (videoW / step) (videoH / step) aspect g
        * (((videoH / step : ℕ) : ℚ) * cellHeightOf g) = vh := by
      rw [hSeq, hmin]
      exact div_mul_cancel₀ vh (ne_of_gt hgh)
    have hwid : gridScale vw vh (videoW / step) (videoH / step) aspect g
        * (((videoW / step : ℕ) : ℚ) * cellWidthOf aspect g) ≤ vw := by
      rw [hSeq, hmin]
      calc vh / (((videoH / step : ℕ) : ℚ) * cellHeightOf g)
            * (((videoW / step : ℕ) : ℚ) * cellWidthOf aspect g)
          ≤ vw / (((videoW / step : ℕ) : ℚ) * cellWidthOf aspect g)
            * (((videoW / step : ℕ) : ℚ) * cellWidthOf aspect g) :=
            mul_le_mul_of_nonneg_right (le_of_lt hlt) (le_of_lt hgw)
        _ = vw := div_mul_cancel₀ vw (ne_of_gt hgw)
    exact ⟨hwid, le_of_eq hhei, Or.inr hhei⟩

/-- C2 witness: a 600 × 600 source at step 6 (100 × 100 cells), aspect 0.6,
geometry ⟨10, 0, 1⟩, viewport 300 × 2000: the grid (600 × 1000 px) overflows,
auto-fit scales by 1/2, and the result exactly fills the width. -/
theorem autofit_no_locks_overflow_fits_witness :
    (4 : ℚ) ≤ 10 * gridScale 300 2000 (600 / 6) (600 / 6) (3 / 5) ⟨10, 0, 1⟩ ∧
    (((600 / 6 : ℕ) : ℚ) * cellWidthOf (3 / 5)
        (calculateAutoSize 300 2000 600 600 6 (3 / 5) ⟨true, true, true⟩ ⟨10, 0, 1⟩) ≤ 300 ∧
     ((600 / 6 : ℕ) : ℚ) * cellHeightOf
        (calculateAutoSize 300 2000 600 600 6 (3 / 5) ⟨true, true, true⟩ ⟨10, 0, 1⟩) ≤ 2000 ∧
     (((600 / 6 : ℕ) : ℚ) * cellWidthOf (3 / 5)
        (calculateAutoSize 300 2000 600 600 6 (3 / 5) ⟨true, true, true⟩ ⟨10, 0, 1⟩) = 300 ∨
      ((600 / 6 : ℕ) : ℚ) * cellHeightOf
        (calculateAutoSize 300 2000 600 600 6 (3 / 5) ⟨true, true, true⟩ ⟨10, 0, 1⟩) = 2000)) :=
  ⟨by norm_num [gridScale, cellWidthOf, cellHeightOf],
   autofit_no_locks_overflow_fits 300 2000 600 600 6 (3 / 5) ⟨10, 0, 1⟩
     (by decide) (by decide) (by norm_num) (by norm_num) rfl
     (by norm_num [cellWidthOf, cellHeightOf])
     (by norm_num [gridScale, cellWidthOf, cellHeightOf])
     (by norm_num [gridScale, cellWidthOf, cellHeightOf])
     (by norm_num) (by norm_num)
     (by norm_num [gridScale, cellWidthOf, cellHeightOf])⟩

/-- C8 counterexample: auto-fit is not idempotent.  With unchanged inputs
(viewport 50 × 2000, 600 × 600 source, step 6, aspect 0.6, no locks) a first
call takes ⟨10, −0.5, 1⟩ to ⟨5, −0.25, 1⟩, and a second call moves the
geometry again, to ⟨4, −1/14, 1⟩: scaling the em-based letterSpacing is
quadratic in the scale factor, so the rescaled grid overflows anew and the
second solve changes fontSize by 1 px, far above the 0.1 px epsilon. -/
theorem autofit_second_call_changes :
    calculateAutoSize 50 2000 600 600 6 (3 / 5) ⟨true, true, true⟩ ⟨10, -0.5, 1⟩
      = ⟨5, -0.25, 1⟩ ∧
    calculateAutoSize 50 2000 600 600 6 (3 / 5) ⟨true, true, true⟩ ⟨5, -0.25, 1⟩
      = ⟨4, -1/14, 1⟩ ∧
    (⟨4, -1/14, 1⟩ : Geometry) ≠ ⟨5, -0.25, 1⟩ := by
  refine ⟨?_, ?_, ?_⟩
  · norm_num [calculateAutoSize, solveGeometry, gridScale, cellWidthOf, cellHeightOf]
  · norm_num [calculateAutoSize, solveGeometry, gridScale, cellWidthOf, cellHeightOf]
  · intro h
    have := congrArg Geometry.fontSize h
    norm_num at this

/-- C8 (amended): the epsilon suppression holds — a recompute is a no-op
whenever every solved value differs from the current one by less than its
epsilon (fontSize 0.1 px, letterSpacing 0.01 em, lineHeight 0.01); hence a
second call is a no-op whenever the first call changed nothing.  Auto-fit is
not idempotent in general, though: with nonzero letterSpacing a second call
with unchanged inputs can change the geometry again (see the
counterexample). -/
theorem autofit_eps_suppression (vw vh : ℚ) (videoW videoH step : ℕ)
    (aspect : ℚ) (auto : AutoSizing) (g : Geometry)
    (hf : |(solveGeometry vw vh (videoW / step) (videoH / step) aspect auto g).fontSize
      - g.fontSize| < 0.1)
    (hl : |(solveGeometry vw vh (videoW / step) (videoH / step) aspect auto g).letterSpacing
      - g.letterSpacing| < 0.01)
    (hh : |(solveGeometry vw vh (videoW / step) (videoH / step) aspect auto g).lineHeight
      - g.lineHeight| < 0.01) :
    calculateAutoSize vw vh videoW videoH step aspect auto g = g := by
  simp only [calculateAutoSize]
  split_ifs with h1 h2 h3 h4
  · rfl
  · rfl
  · rfl
  · exfalso
    rcases h4 with h4 | h4 | h4
    · exact absurd hf (not_lt.mpr (le_of_lt h4))
    · exact absurd hl (not_lt.mpr (le_of_lt h4))
    · exact absurd hh (not_lt.mpr (le_of_lt h4))
  · rfl

/-- C8 witness: a near-fit overflow (grid 480 px wide, viewport 479 px) where
the solved fontSize 479/60 differs from the current 8 by only 1/60 < 0.1, so
the recompute is suppressed and the geometry is unchanged. -/
theorem autofit_eps_suppression_witness :
    |(solveGeometry 479 10000 (600 / 6) (60 / 6) (3 / 5) ⟨true, true, true⟩
        ⟨8, 0, 1⟩).fontSize - (8 : ℚ)| < 0.1 ∧
    calculateAutoSize 479 10000 600 60 6 (3 / 5) ⟨true, true, true⟩ ⟨8, 0, 1⟩
      = ⟨8, 0, 1⟩ :=
  ⟨by norm_num [solveGeometry, gridScale, cellWidthOf, cellHeightOf, abs_lt],
   autofit_eps_suppression 479 10000 600 60 6 (3 / 5) ⟨true, true, true⟩ ⟨8, 0, 1⟩
     (by norm_num [solveGeometry, gridScale, cellWidthOf, cellHeightOf, abs_lt])
     (by norm_num [solveGeometry, gridScale, cellWidthOf, cellHeightOf, abs_lt])
     (by norm_num [solveGeometry, gridScale, cellWidthOf, cellHeightOf, abs_lt])⟩

/-- Whatever the branch, the solved geometry ends inside the clamp bounds,
because the clamp is the last step of `solveGeometry`. -/
theorem solveGeometry_bounds (vw vh : ℚ) (cols rows : ℕ) (aspect : ℚ)
    (auto : AutoSizing) (g : Geometry) :
    geomInBounds (solveGeometry vw vh cols rows aspect auto g) := by
  simp only [solveGeometry, geomInBounds]
  refine ⟨le_max_left _ _, max_le (by norm_num) (min_le_left _ _),
    le_max_left _ _, max_le (by norm_num) (min_le_left _ _),
    le_max_left _ _, max_le (by norm_num) (min_le_left _ _)⟩

/-- C7: every operation that sets glyph geometry keeps `fontSize` in
`[4, 128]` px, `lineHeight` in `[0.5, 3]` and `letterSpacing` in `[-2, 8]`
em.  For auto-fit, whenever the call changes the geometry the result is the
once-clamped solved geometry `solveGeometry` (the clamp is its final step;
there is no iterative re-solve) and hence lies inside the bounds; randomize
draws its three geometry values inside the bounds for any `Math.random()`
draw in `[0, 1)`; the three sliders are declared with exactly these bounds,
so a slider edit inside its declared range stays inside them. -/
theorem geometry_setting_bounds (vw vh : ℚ) (videoW videoH step : ℕ)
    (aspect : ℚ) (auto : AutoSizing) (g : Geometry) (rs : RandomSettings)
    (d : Draws) (prev : Settings) (az : AutoSizing) (v w u : ℚ) :
    (calculateAutoSize vw vh videoW videoH step aspect auto g ≠ g →
      calculateAutoSize vw vh videoW videoH step aspect auto g
        = solveGeometry vw vh (videoW / step) (videoH / step) aspect auto g ∧
      geomInBounds (calculateAutoSize vw vh videoW videoH step aspect auto g)) ∧
    (rs.enabled = true →
      (rs.controls.fontSize = true → 0 ≤ d.fontSize → d.fontSize < 1 →
        4 ≤ (randomizeSettings rs d prev az).1.fontSize ∧
        (randomizeSettings rs d prev az).1.fontSize ≤ 128) ∧
      (rs.controls.letterSpacing = true → 0 ≤ d.letterSpacing → d.letterSpacing < 1 →
        -2 ≤ (randomizeSettings rs d prev az).1.letterSpacing ∧
        (randomizeSettings rs d prev az).1.letterSpacing ≤ 8) ∧
      (rs.controls.lineHeight = true → 0 ≤ d.lineHeight → d.lineHeight < 1 →
        0.5 ≤ (randomizeSettings rs d prev az).1.lineHeight ∧
        (randomizeSettings rs d prev az).1.lineHeight ≤ 3)) ∧
    (4 ≤ v → v ≤ 128 →
      4 ≤ (fontSizeSliderChange prev az v).1.fontSize ∧
      (fontSizeSliderChange prev az v).1.fontSize ≤ 128) ∧
    (-2 ≤ w → w ≤ 8 →
      -2 ≤ (letterSpacingSliderChange prev az w).1.letterSpacing ∧
      (letterSpacingSliderChange prev az w).1.letterSpacing ≤ 8) ∧
    (0.5 ≤ u → u ≤ 3 →
      0.5 ≤ (lineHeightSliderChange prev az u).1.lineHeight ∧
      (lineHeightSliderChange prev az u).1.lineHeight ≤ 3) := by
  refine ⟨?_, ?_, ?_, ?_, ?_⟩
  · intro hne
    simp only [calculateAutoSize] at hne ⊢
    split_ifs at hne ⊢ with h1 h2 h3 h4
    · exact absurd rfl hne
    · exact absurd rfl hne
    · exact absurd rfl hne
    · exact ⟨rfl, solveGeometry_bounds vw vh (videoW / step) (videoH / step) aspect auto g⟩
    · exact absurd rfl hne
  · intro he
    refine ⟨?_, ?_, ?_⟩
    · intro hc h0 h1
      have hprj : (randomizeSettings rs d prev az).1.fontSize
          = (⌊d.fontSize * (32 - 4)⌋ : ℚ) + 4 := by
        simp [randomizeSettings, he, hc]
      have hfl0 : (0 : ℤ) ≤ ⌊d.fontSize * (32 - 4)⌋ := by
        refine Int.le_floor.mpr ?_
        push_cast
        nlinarith
      have hfl1 : ⌊d.fontSize * (32 - 4)⌋ < 28 := by
        refine Int.floor_lt.mpr ?_
        push_cast
        nlinarith
      have hq0 : (0 : ℚ) ≤ (⌊d.fontSize * (32 - 4)⌋ : ℚ) := by exact_mod_cast hfl0
      have hq1 : ((⌊d.fontSize * (32 - 4)⌋ : ℤ) : ℚ) ≤ 27 := by
        have : ⌊d.fontSize * (32 - 4)⌋ ≤ 27 := by omega
        exact_mod_cast this
      rw [hprj]
      constructor <;> linarith
    · intro hc h0 h1
      have hprj : (randomizeSettings rs d prev az).1.letterSpacing
          = d.letterSpacing * 10 - 2 := by
        simp [randomizeSettings, he, hc]
      rw [hprj]
      constructor <;> nlinarith
    · intro hc h0 h1
      have hprj : (randomizeSettings rs d prev az).1.lineHeight
          = d.lineHeight * 2.5 + 0.5 := by
        simp [randomizeSettings, he, hc]
      rw [hprj]
      constructor <;> nlinarith
  · intro h1 h2
    exact ⟨h1, h2⟩
  · intro h1 h2
    exact ⟨h1, h2⟩
  · intro h1 h2
    exact ⟨h1, h2⟩

/-- C7 witness: an overflowing auto-fit call lands in bounds, and a
randomize draw of 1/2 for every control yields fontSize 18 within bounds. -/
theorem geometry_setting_bounds_witness :
    geomInBounds (calculateAutoSize 300 2000 600 600 6 (3 / 5) ⟨true, true, true⟩
      ⟨10, 0, 1⟩) ∧
    (4 ≤ (randomizeSettings
        ⟨true, 2000, false,
          ⟨true, true, true, true, true, true, true, true, true, true, true, true, true⟩⟩
        ⟨1/2, 1/2, 1/2, 1/2, 1/2, 1/2, 1/2, 1/2, 1/2, 1/2, 1/2, 1/2, 1/2⟩
        DEFAULT_SETTINGS ⟨true, true, true⟩).1.fontSize ∧
     (randomizeSettings
        ⟨true, 2000, false,
          ⟨true, true, true, true, true, true, true, true, true, true, true, true, true⟩⟩
        ⟨1/2, 1/2, 1/2, 1/2, 1/2, 1/2, 1/2, 1/2, 1/2, 1/2, 1/2, 1/2, 1/2⟩
        DEFAULT_SETTINGS ⟨true, true, true⟩).1.fontSize ≤ 128) := by
  constructor
  · refine ((geometry_setting_bounds 300 2000 600 600 6 (3 / 5) ⟨true, true, true⟩
      ⟨10, 0, 1⟩ ⟨true, 2000, false,
        ⟨true, true, true, true, true, true, true, true, true, true, true, true, true⟩⟩
      ⟨1/2, 1/2, 1/2, 1/2, 1/2, 1/2, 1/2, 1/2, 1/2, 1/2, 1/2, 1/2, 1/2⟩
      DEFAULT_SETTINGS ⟨true, true, true⟩ 10 0 1).1 ?_).2
    intro h
    have := congrArg Geometry.fontSize h
    norm_num [calculateAutoSize, solveGeometry, gridScale, cellWidthOf, cellHeightOf] at this
  · exact ((geometry_setting_bounds 300 2000 600 600 6 (3 / 5) ⟨true, true, true⟩
      ⟨10, 0, 1⟩ ⟨true, 2000, false,
        ⟨true, true, true, true, true, true, true, true, true, true, true, true, true⟩⟩
      ⟨1/2, 1/2, 1/2, 1/2, 1/2, 1/2, 1/2, 1/2, 1/2, 1/2, 1/2, 1/2, 1/2⟩
      DEFAULT_SETTINGS ⟨true, true, true⟩ 10 0 1).2.1 rfl).1 rfl (by norm_num) (by norm_num)

/-- C9: randomize changes only the fields whose control is enabled — every
disabled field of the configuration (and its auto-fit lock, for the three
geometry fields) is left unchanged, so with exactly one field enabled only
that field changes; and whenever randomize draws a value for `fontSize`,
`letterSpacing` or `lineHeight` it also locks that dimension against
auto-fit (the `autoSizing` flag, `true` in the spec's lock polarity, is the
flag set to `false` here). -/
theorem randomize_field_isolation (rs : RandomSettings) (d : Draws)
    (prev : Settings) (az : AutoSizing) (he : rs.enabled = true) :
    (rs.controls.fontSize = false →
      (randomizeSettings rs d prev az).1.fontSize = prev.fontSize ∧
      (randomizeSettings rs d prev az).2.fontSize = az.fontSize) ∧
    (rs.controls.letterSpacing = false →
      (randomizeSettings rs d prev az).1.letterSpacing = prev.letterSpacing ∧
      (randomizeSettings rs d prev az).2.letterSpacing = az.letterSpacing) ∧
    (rs.controls.lineHeight = false →
      (randomizeSettings rs d prev az).1.lineHeight = prev.lineHeight ∧
      (randomizeSettings rs d prev az).2.lineHeight = az.lineHeight) ∧
    (rs.controls.contrast = false →
      (randomizeSettings rs d prev az).1.contrast = prev.contrast) ∧
    (rs.controls.brightness = false →
      (randomizeSettings rs d prev az).1.brightness = prev.brightness) ∧
    (rs.controls.saturation = false →
      (randomizeSettings rs d prev az).1.saturation = prev.saturation) ∧
    (rs.controls.invert = false →
      (randomizeSettings rs d prev az).1.invert = prev.invert) ∧
    (rs.controls.grayscale = false →
      (randomizeSettings rs d prev az).1.grayscale = prev.grayscale) ∧
    (rs.controls.mirrorCamera = false →
      (randomizeSettings rs d prev az).1.mirrorCamera = prev.mirrorCamera) ∧
    (rs.controls.foregroundColor = false →
      (randomizeSettings rs d prev az).1.foregroundColor = prev.foregroundColor) ∧
    (rs.controls.backgroundColor = false →
      (randomizeSettings rs d prev az).1.backgroundColor = prev.backgroundColor) ∧
    (rs.controls.asciiSet = false →
      (randomizeSettings rs d prev az).1.asciiSet = prev.asciiSet) ∧
    (rs.controls.fontFamily = false →
      (randomizeSettings rs d prev az).1.fontFamily = prev.fontFamily) ∧
    ((randomizeSettings rs d prev az).1.showStats = prev.showStats) ∧
    (rs.controls.fontSize = true →
      (randomizeSettings rs d prev az).2.fontSize = false) ∧
    (rs.controls.letterSpacing = true →
      (randomizeSettings rs d prev az).2.letterSpacing = false) ∧
    (rs.controls.lineHeight = true →
      (randomizeSettings rs d prev az).2.lineHeight = false) := by
  refine ⟨?_, ?_, ?_, ?_, ?_, ?_, ?_, ?_, ?_, ?_, ?_, ?_, ?_, ?_, ?_, ?_, ?_⟩ <;>
    first
      | (intro hc
         refine ⟨?_, ?_⟩ <;> simp [randomizeSettings, he, hc])
      | (intro hc
         simp [randomizeSettings, he, hc])
      | simp [randomizeSettings, he]

/-- C9 witness: with only the contrast control enabled, fontSize and its
lock are unchanged, and with the fontSize control enabled its lock is set. -/
theorem randomize_field_isolation_witness :
    ((randomizeSettings
        ⟨true, 2000, false,
          ⟨false, false, false, true, false, false, false, false, false, false, false, false, false⟩⟩
        ⟨1/2, 1/2, 1/2, 1/2, 1/2, 1/2, 1/2, 1/2, 1/2, 1/2, 1/2, 1/2, 1/2⟩
        DEFAULT_SETTINGS ⟨true, true, true⟩).1.fontSize = DEFAULT_SETTINGS.fontSize ∧
     (randomizeSettings
        ⟨true, 2000, false,
          ⟨false, false, false, true, false, false, false, false, false, false, false, false, false⟩⟩
        ⟨1/2, 1/2, 1/2, 1/2, 1/2, 1/2, 1/2, 1/2, 1/2, 1/2, 1/2, 1/2, 1/2⟩
        DEFAULT_SETTINGS ⟨true, true, true⟩).2.fontSize = (⟨true, true, true⟩ : AutoSizing).fontSize) ∧
    (randomizeSettings
        ⟨true, 2000, false,
          ⟨true, false, false, false, false, false, false, false, false, false, false, false, false⟩⟩
        ⟨1/2, 1/2, 1/2, 1/2, 1/2, 1/2, 1/2, 1/2, 1/2, 1/2, 1/2, 1/2, 1/2⟩
        DEFAULT_SETTINGS ⟨true, true, true⟩).2.fontSize = false :=
  ⟨(randomize_field_isolation
      ⟨true, 2000, false,
        ⟨false, false, false, true, false, false, false, false, false, false, false, false, false⟩⟩
      ⟨1/2, 1/2, 1/2, 1/2, 1/2, 1/2, 1/2, 1/2, 1/2, 1/2, 1/2, 1/2, 1/2⟩
      DEFAULT_SETTINGS ⟨true, true, true⟩ rfl).1 rfl,
   (randomize_field_isolation
      ⟨true, 2000, false,
        ⟨true, false, false, false, false, false, false, false, false, false, false, false, false⟩⟩
      ⟨1/2, 1/2, 1/2, 1/2, 1/2, 1/2, 1/2, 1/2, 1/2, 1/2, 1/2, 1/2, 1/2⟩
      DEFAULT_SETTINGS ⟨true, true, true⟩ rfl).2.2.2.2.2.2.2.2.2.2.2.2.2.2.1 rfl⟩

end CamAscii
